import Mathlib

/-!
Shallow embedding of the session & identity registry subsystem of
mautrix-whatsapp (Element fork): the Puppet persistence layer
(src/database/puppet.go) and the bridge orchestrator's activity tracker
and session startup (main.go).

Modelling conventions:
  * Go `int64` is `Int`; Go `uint` counters are `Nat`.
  * `time.Time` is modelled at second precision as `Option Int`:
    `none` is the zero time (`IsZero`), `some s` is the time with Unix
    seconds `s` (`time.Unix(s, 0)`).
  * `sql.NullInt64` is `Option Int`; its `.Int64` accessor on NULL yields 0,
    modelled by `Option.getD 0`.
  * `id.ContentURI` (external library) is modelled by its string form;
    `String()` and `ParseContentURI` are inverse on the values the program
    stores, so both are the identity here.
  * Database side effects are explicit: the puppet table is a list of rows,
    and a fallible `Exec` is represented by an `Option String` error outcome
    passed in.
-/

namespace Mautrix

/-- whatsmeow `types.JID` (external collaborator), restricted to the fields
this subsystem reads: `User`, `Server` and `Device`. -/
structure JID where
  user : String
  server : String
  device : Nat
  deriving Repr, DecidableEq

/-- whatsmeow `types.DefaultUserServer`, the standard-user namespace. -/
def DefaultUserServer : String := "s.whatsapp.net"

/-- whatsmeow `types.NewJID(user, server)`: a bare JID with no device part. -/
def NewJID (user server : String) : JID :=
  { user := user, server := server, device := 0 }

/-- whatsmeow `JID.IsEmpty`: true when the server part is empty. -/
def JID.IsEmpty (j : JID) : Bool := j.server == ""

/-- `database.Puppet` (src/database/puppet.go), the in-memory entity. -/
structure Puppet where
  jid : JID
  avatar : String
  avatarURL : String
  avatarSet : Bool
  displayname : String
  nameQuality : Int
  nameSet : Bool
  contactInfoSet : Bool
  lastSync : Option Int
  customMXID : String
  accessToken : String
  nextBatch : String
  enablePresence : Bool
  enableReceipts : Bool
  firstActivityTs : Int
  lastActivityTs : Int
  deriving Repr, DecidableEq

/-- `newPuppet` (src/database/puppet.go): default-initialized puppet with
presence and receipts enabled. -/
def newPuppet : Puppet :=
  { jid := { user := "", server := "", device := 0 }
    avatar := ""
    avatarURL := ""
    avatarSet := false
    displayname := ""
    nameQuality := 0
    nameSet := false
    contactInfoSet := false
    lastSync := none
    customMXID := ""
    accessToken := ""
    nextBatch := ""
    enablePresence := true
    enableReceipts := true
    firstActivityTs := 0
    lastActivityTs := 0 }

/-- In-memory effect of `Puppet.UpdateActivityTs` (src/database/puppet.go
lines 161-179): an older timestamp returns early; otherwise
`LastActivityTs` is set, and `FirstActivityTs` is set when it is still 0. -/
def updateActivityTs (p : Puppet) (activityTs : Int) : Puppet :=
  if p.lastActivityTs > activityTs then p
  else
    let p1 : Puppet := { p with lastActivityTs := activityTs }
    if p1.firstActivityTs = 0 then { p1 with firstActivityTs := activityTs }
    else p1

/-- `Puppet.UpdateActivityTs` with its two database writes made explicit:
`execLastErr` and `execFirstErr` are the outcomes of the two `Exec` calls
(`some e` is a failure). Returns the resulting in-memory puppet and the
warning log lines emitted. The source only logs a failed write and keeps
the in-memory assignment made before the write. -/
def updateActivityTsExec (p : Puppet) (activityTs : Int)
    (execLastErr execFirstErr : Option String) : Puppet × List String :=
  if p.lastActivityTs > activityTs then (p, [])
  else
    let p1 : Puppet := { p with lastActivityTs := activityTs }
    let logs1 : List String :=
      match execLastErr with
      | some e => ["Failed to update last_activity_ts: " ++ e]
      | none => []
    if p1.firstActivityTs = 0 then
      let p2 : Puppet := { p1 with firstActivityTs := activityTs }
      let logs2 : List String :=
        match execFirstErr with
        | some e => ["Failed to update first_activity_ts: " ++ e]
        | none => []
      (p2, logs1 ++ logs2)
    else (p1, logs1)

/-- `ONE_DAY_S` (main.go): seconds in a day. -/
def ONE_DAY_S : Int := 24 * 60 * 60

/-- The fields of `config.Limits` read by `UpdateActivePuppetCount`
(external `config` package, fields as used in main.go). -/
structure Limits where
  minPuppetActiveDays : Int
  puppetInactivityDays : Int
  maxPuppetLimit : Nat
  blockOnLimitReached : Bool
  deriving Repr, DecidableEq

/-- `PuppetActivity`: the derived activity snapshot owned by the bridge. -/
structure PuppetActivity where
  currentUserCount : Nat
  isBlocked : Bool
  deriving Repr, DecidableEq

/-- Body of the row loop of `UpdateActivePuppetCount` (main.go lines
331-338): a row `(firstActivityTs, lastActivityTs)` is counted iff it is
not inactive and its activity span lies strictly between the two bounds. -/
def activeFilter (now minActivityTime maxActivityTime : Int)
    (row : Int × Int) : Bool :=
  let secondsOfActivity := row.2 - row.1
  let isInactive : Bool := decide (now - row.2 > maxActivityTime)
  !isInactive && decide (secondsOfActivity > minActivityTime)
    && decide (secondsOfActivity < maxActivityTime)

/-- The read `SELECT first_activity_ts, last_activity_ts FROM puppet WHERE
first_activity_ts is not NULL` (main.go line 326) over a table whose rows
carry a nullable first and a last activity timestamp. -/
def activityQuery (table : List (Option Int × Int)) : List (Int × Int) :=
  table.filterMap (fun r => r.1.map (fun f => (f, r.2)))

/-- `WABridge.UpdateActivePuppetCount` (main.go lines 318-345).
`queryResult` is the outcome of the database read (`none` is a read
error); `prev` is the snapshot before the run. On a read error the code
only logs and the snapshot is untouched; on success the count is always
replaced, while `isBlocked` is reassigned only when
`BlockOnLimitReached` is enabled. -/
def UpdateActivePuppetCount (cfg : Limits) (now : Int)
    (queryResult : Option (List (Int × Int)))
    (prev : PuppetActivity) : PuppetActivity :=
  match queryResult with
  | none => prev
  | some rows =>
    let minActivityTime := ONE_DAY_S * cfg.minPuppetActiveDays
    let maxActivityTime := ONE_DAY_S * cfg.puppetInactivityDays
    let activePuppetCount :=
      (rows.filter (activeFilter now minActivityTime maxActivityTime)).length
    { currentUserCount := activePuppetCount
      isBlocked :=
        if cfg.blockOnLimitReached then
          decide (cfg.maxPuppetLimit < activePuppetCount)
        else prev.isBlocked }

theorem activeFilter_eq_decide (now minT maxT f l : Int) :
    activeFilter now minT maxT (f, l)
      = decide (¬ (now - l > maxT) ∧ ((l - f > minT) ∧ (l - f < maxT))) := by
  by_cases h1 : now - l > maxT <;> by_cases h2 : l - f > minT <;>
    by_cases h3 : l - f < maxT <;> simp [activeFilter, h1, h2, h3]

theorem length_filter_activityQuery (now minT maxT : Int)
    (table : List (Option Int × Int)) :
    ((activityQuery table).filter (activeFilter now minT maxT)).length
      = table.countP (fun r =>
          match r.1 with
          | none => false
          | some f =>
            decide (¬ (now - r.2 > maxT)
              ∧ ((r.2 - f > minT) ∧ (r.2 - f < maxT)))) := by
  induction table with
  | nil => rfl
  | cons r t ih =>
    obtain ⟨fo, l⟩ := r
    cases fo with
    | none =>
      simpa [activityQuery, List.countP_cons] using ih
    | some f =>
      by_cases hc : (¬ (now - l > maxT) ∧ ((l - f > minT) ∧ (l - f < maxT)))
      · simp_all [activityQuery, List.filter_cons, List.countP_cons,
          activeFilter_eq_decide, hc]
      · simp_all [activityQuery, List.filter_cons, List.countP_cons,
          activeFilter_eq_decide, hc]

theorem updateActivePuppetCount_example_inactive (cfg : Limits)
    (prev : PuppetActivity) (hwin : 0 < ONE_DAY_S * cfg.puppetInactivityDays) :
    (UpdateActivePuppetCount cfg (2 * (ONE_DAY_S * cfg.puppetInactivityDays))
      (some [(0, 0)]) prev).currentUserCount = 0 := by
  simp only [UpdateActivePuppetCount, List.filter_cons, activeFilter_eq_decide]
  split
  · rename_i hcond
    obtain ⟨hA, hB, hC⟩ := of_decide_eq_true hcond
    exact absurd (by omega : (2 * (ONE_DAY_S * cfg.puppetInactivityDays)
      - 0 > ONE_DAY_S * cfg.puppetInactivityDays)) hA
  · simp

theorem updateActivePuppetCount_example_active (cfg : Limits) (now : Int)
    (prev : PuppetActivity)
    (hspan : ONE_DAY_S * cfg.minPuppetActiveDays + 1
      < ONE_DAY_S * cfg.puppetInactivityDays)
    (hrecent : now - (10 + ONE_DAY_S * cfg.minPuppetActiveDays + 1)
      ≤ ONE_DAY_S * cfg.puppetInactivityDays) :
    (UpdateActivePuppetCount cfg now
      (some [(10, 10 + ONE_DAY_S * cfg.minPuppetActiveDays + 1)])
      prev).currentUserCount = 1 := by
  simp only [UpdateActivePuppetCount, List.filter_cons, activeFilter_eq_decide]
  split
  · simp
  · rename_i hcond
    exact absurd (decide_eq_true ⟨by omega, by omega, by omega⟩) hcond

theorem updateActivePuppetCount_example_span_exceeds (cfg : Limits) (now : Int)
    (prev : PuppetActivity) :
    (UpdateActivePuppetCount cfg now
      (some [(10, 10 + ONE_DAY_S * cfg.puppetInactivityDays + 10)])
      prev).currentUserCount = 0 := by
  simp only [UpdateActivePuppetCount, List.filter_cons, activeFilter_eq_decide]
  split
  · rename_i hcond
    obtain ⟨hA, hB, hC⟩ := of_decide_eq_true hcond
    omega
  · simp

/-- C2: on a successful run, `currentUserCount` equals the number of table
rows whose first-activity timestamp is non-null, which are not inactive
(`now - last ≤ maxActivityTime`), and whose activity span
`last - first` lies strictly between `minActivityTime` and
`maxActivityTime`; and the three concrete cases of the claim: a puppet
with `first = last = 0` seen `2 * window` ago is excluded as inactive, a
recently active puppet with span `minActive + 1` is included, and a
recently active puppet with span `window + 10` is excluded because its
span exceeds the window. -/
theorem updateActivePuppetCount_counts_active (cfg : Limits) (now : Int)
    (table : List (Option Int × Int)) (prev : PuppetActivity) :
    ((UpdateActivePuppetCount cfg now (some (activityQuery table))
        prev).currentUserCount
      = table.countP (fun r =>
          match r.1 with
          | none => false
          | some f =>
            decide (¬ (now - r.2 > ONE_DAY_S * cfg.puppetInactivityDays)
              ∧ ((r.2 - f > ONE_DAY_S * cfg.minPuppetActiveDays)
                ∧ (r.2 - f < ONE_DAY_S * cfg.puppetInactivityDays)))))
    ∧ (0 < ONE_DAY_S * cfg.puppetInactivityDays →
        (UpdateActivePuppetCount cfg
          (2 * (ONE_DAY_S * cfg.puppetInactivityDays))
          (some [(0, 0)]) prev).currentUserCount = 0)
    ∧ (ONE_DAY_S * cfg.minPuppetActiveDays + 1
          < ONE_DAY_S * cfg.puppetInactivityDays →
        now - (10 + ONE_DAY_S * cfg.minPuppetActiveDays + 1)
          ≤ ONE_DAY_S * cfg.puppetInactivityDays →
        (UpdateActivePuppetCount cfg now
          (some [(10, 10 + ONE_DAY_S * cfg.minPuppetActiveDays + 1)])
          prev).currentUserCount = 1)
    ∧ (UpdateActivePuppetCount cfg now
        (some [(10, 10 + ONE_DAY_S * cfg.puppetInactivityDays + 10)])
        prev).currentUserCount = 0 := by
  refine ⟨?_, ?_, ?_, ?_⟩
  · simpa [UpdateActivePuppetCount] using
      length_filter_activityQuery now (ONE_DAY_S * cfg.minPuppetActiveDays)
        (ONE_DAY_S * cfg.puppetInactivityDays) table
  · exact fun hwin => updateActivePuppetCount_example_inactive cfg prev hwin
  · exact fun hspan hrecent =>
      updateActivePuppetCount_example_active cfg now prev hspan hrecent
  · exact updateActivePuppetCount_example_span_exceeds cfg now prev

/-- Witness for C2 at a concrete configuration, time and table. -/
theorem updateActivePuppetCount_counts_active_witness :
    (UpdateActivePuppetCount (⟨1, 30, 5, true⟩ : Limits) 86412
      (some [(10, 86411)]) (⟨0, false⟩ : PuppetActivity)).currentUserCount
      = 1 :=
  (updateActivePuppetCount_counts_active (⟨1, 30, 5, true⟩ : Limits) 86412 []
    (⟨0, false⟩ : PuppetActivity)).2.2.1 (by decide) (by decide)

/-- C3: when `BlockOnLimitReached` is enabled, after a successful run the
blocked flag is true exactly when the computed active-puppet count is
strictly greater than `MaxPuppetLimit`. -/
theorem updateActivePuppetCount_blocked_iff (cfg : Limits) (now : Int)
    (rows : List (Int × Int)) (prev : PuppetActivity)
    (hpol : cfg.blockOnLimitReached = true) :
    ((UpdateActivePuppetCount cfg now (some rows) prev).isBlocked = true
      ↔ cfg.maxPuppetLimit
          < (UpdateActivePuppetCount cfg now (some rows)
              prev).currentUserCount) := by
  simp [UpdateActivePuppetCount, hpol]

/-- Witness for C3 at a concrete configuration and table. -/
theorem updateActivePuppetCount_blocked_iff_witness :
    ((UpdateActivePuppetCount (⟨0, 30, 0, true⟩ : Limits) 1000000
      (some [(0, 500000)]) (⟨0, false⟩ : PuppetActivity)).isBlocked = true
      ↔ (0 : Nat)
          < (UpdateActivePuppetCount (⟨0, 30, 0, true⟩ : Limits) 1000000
            (some [(0, 500000)])
            (⟨0, false⟩ : PuppetActivity)).currentUserCount) :=
  updateActivePuppetCount_blocked_iff (⟨0, 30, 0, true⟩ : Limits) 1000000
    [(0, 500000)] (⟨0, false⟩ : PuppetActivity) rfl

/-- C4: a failed persistence read leaves the whole previous snapshot in
effect: both `currentUserCount` and `isBlocked` keep their previous
values, and a previous non-zero count is never turned into zero. -/
theorem updateActivePuppetCount_error_keeps_snapshot (cfg : Limits)
    (now : Int) (prev : PuppetActivity) :
    UpdateActivePuppetCount cfg now none prev = prev
    ∧ (UpdateActivePuppetCount cfg now none prev).currentUserCount
        = prev.currentUserCount
    ∧ (UpdateActivePuppetCount cfg now none prev).isBlocked
        = prev.isBlocked :=
  ⟨rfl, rfl, rfl⟩

/-- A configuration with hard blocking disabled, used to refute C5. -/
def limitsNoBlock : Limits :=
  { minPuppetActiveDays := 0, puppetInactivityDays := 30,
    maxPuppetLimit := 0, blockOnLimitReached := false }

/-- C5 counterexample: with `BlockOnLimitReached` disabled, a successful
recomputation that finds one active puppet (over the configured maximum
of 0) produces a snapshot that is neither the previous pair (0, false)
unchanged, nor the freshly computed pair (1, true): only
`currentUserCount` is replaced, `isBlocked` keeps its stale value. -/
theorem updateActivePuppetCount_not_atomic_pair :
    ¬ (UpdateActivePuppetCount limitsNoBlock 1000000 (some [(0, 500000)])
          { currentUserCount := 0, isBlocked := false }
        = { currentUserCount := 0, isBlocked := false }
      ∨ UpdateActivePuppetCount limitsNoBlock 1000000 (some [(0, 500000)])
          { currentUserCount := 0, isBlocked := false }
        = { currentUserCount :=
              ([((0 : Int), (500000 : Int))].filter
                (activeFilter 1000000 (ONE_DAY_S * 0) (ONE_DAY_S * 30))).length,
            isBlocked := decide (limitsNoBlock.maxPuppetLimit
              < ([((0 : Int), (500000 : Int))].filter
                  (activeFilter 1000000 (ONE_DAY_S * 0)
                    (ONE_DAY_S * 30))).length) }) := by
  decide

/-- C5 (amended): a failed read leaves both snapshot fields unchanged;
a successful run with `BlockOnLimitReached` enabled replaces both fields
together as the freshly computed pair; a successful run with
`BlockOnLimitReached` disabled replaces only `currentUserCount`, and
`isBlocked` retains its previous value. -/
theorem updateActivePuppetCount_pair_update (cfg : Limits) (now : Int)
    (rows : List (Int × Int)) (prev : PuppetActivity) :
    UpdateActivePuppetCount cfg now none prev = prev
    ∧ (cfg.blockOnLimitReached = true →
        UpdateActivePuppetCount cfg now (some rows) prev
          = { currentUserCount :=
                (rows.filter (activeFilter now
                  (ONE_DAY_S * cfg.minPuppetActiveDays)
                  (ONE_DAY_S * cfg.puppetInactivityDays))).length,
              isBlocked := decide (cfg.maxPuppetLimit
                < (rows.filter (activeFilter now
                    (ONE_DAY_S * cfg.minPuppetActiveDays)
                    (ONE_DAY_S * cfg.puppetInactivityDays))).length) })
    ∧ (cfg.blockOnLimitReached = false →
        UpdateActivePuppetCount cfg now (some rows) prev
          = { currentUserCount :=
                (rows.filter (activeFilter now
                  (ONE_DAY_S * cfg.minPuppetActiveDays)
                  (ONE_DAY_S * cfg.puppetInactivityDays))).length,
              isBlocked := prev.isBlocked }) := by
  refine ⟨rfl, ?_, ?_⟩ <;> intro h <;> simp [UpdateActivePuppetCount, h]

/-- Witness for C5's amended theorem at a concrete run. -/
theorem updateActivePuppetCount_pair_update_witness :
    UpdateActivePuppetCount limitsNoBlock 1000000 (some [(0, 500000)])
        { currentUserCount := 0, isBlocked := true }
      = { currentUserCount := 1, isBlocked := true } := by
  have h := (updateActivePuppetCount_pair_update limitsNoBlock 1000000
    [(0, 500000)] { currentUserCount := 0, isBlocked := true }).2.2 rfl
  rw [h]
  decide

/-- Reachability invariant of in-program puppets: a puppet whose
`FirstActivityTs` is still unset has never recorded any activity, so its
`LastActivityTs` is 0 as well. Fresh puppets satisfy it and
`updateActivityTs` preserves it. -/
def ActivityInv (p : Puppet) : Prop := p.firstActivityTs = 0 → p.lastActivityTs = 0

theorem updateActivityTs_preserves_inv (p : Puppet) (ts : Int) (h : ActivityInv p) :
    ActivityInv (updateActivityTs p ts) := by
  unfold ActivityInv at *
  obtain ⟨a1, a2, a3, a4, a5, a6, a7, a8, a9, a10, a11, a12, a13, a14, a15, a16⟩ := p
  simp only [updateActivityTs] at *
  split_ifs with h1 h2 <;> simp_all

theorem updateActivityTs_last_monotone (p : Puppet) (ts : Int) :
    p.lastActivityTs ≤ (updateActivityTs p ts).lastActivityTs := by
  obtain ⟨a1, a2, a3, a4, a5, a6, a7, a8, a9, a10, a11, a12, a13, a14, a15, a16⟩ := p
  simp only [updateActivityTs] at *
  split_ifs with h1 h2 <;> simp_all

theorem updateActivityTs_foldl_monotone (p : Puppet) (l : List Int) :
    p.lastActivityTs ≤ (l.foldl updateActivityTs p).lastActivityTs := by
  induction l generalizing p with
  | nil => exact le_refl _
  | cons t l ih =>
    exact le_trans (updateActivityTs_last_monotone p t) (ih (updateActivityTs p t))

theorem updateActivityTs_noop_of_le (p : Puppet) (ts : Int) (hinv : ActivityInv p)
    (hle : ts ≤ p.lastActivityTs) : updateActivityTs p ts = p := by
  unfold ActivityInv at hinv
  obtain ⟨a1, a2, a3, a4, a5, a6, a7, a8, a9, a10, a11, a12, a13, a14, a15, a16⟩ := p
  simp only [updateActivityTs] at *
  split_ifs with h1 h2 <;> simp_all
  all_goals omega

theorem updateActivityTs_last_of_lt (p : Puppet) (ts : Int)
    (hlt : p.lastActivityTs < ts) : (updateActivityTs p ts).lastActivityTs = ts := by
  obtain ⟨a1, a2, a3, a4, a5, a6, a7, a8, a9, a10, a11, a12, a13, a14, a15, a16⟩ := p
  simp only [updateActivityTs] at *
  split_ifs with h1 h2 <;> simp_all
  all_goals omega

theorem updateActivityTs_first_frozen (p : Puppet) (ts : Int)
    (hset : p.firstActivityTs ≠ 0) :
    (updateActivityTs p ts).firstActivityTs = p.firstActivityTs := by
  obtain ⟨a1, a2, a3, a4, a5, a6, a7, a8, a9, a10, a11, a12, a13, a14, a15, a16⟩ := p
  simp only [updateActivityTs] at *
  split_ifs <;> simp_all

theorem updateActivityTs_first_changes_only_when_unset (p : Puppet) (ts : Int) :
    (updateActivityTs p ts).firstActivityTs = p.firstActivityTs
    ∨ (p.firstActivityTs = 0 ∧ (updateActivityTs p ts).firstActivityTs = ts) := by
  obtain ⟨a1, a2, a3, a4, a5, a6, a7, a8, a9, a10, a11, a12, a13, a14, a15, a16⟩ := p
  simp only [updateActivityTs] at *
  split_ifs with h1 h2 <;> simp_all

/-- C1: `UpdateActivityTs` is monotone and sets `first_activity_ts` at most
once. For every puppet satisfying the reachability invariant (an unset
`first_activity_ts` implies no recorded `last_activity_ts`, which holds for
fresh puppets and is preserved by the operation): a call with a timestamp
older than or equal to the stored `last_activity_ts` leaves the puppet
unchanged; a strictly newer timestamp becomes the new `last_activity_ts`;
`last_activity_ts` never decreases, over a single call and over any
sequence of calls; `first_activity_ts` is only ever modified when it is
still unset and is untouched by later calls; and the arrival sequence
[100, 50, 200] on a fresh puppet ends with `last_activity_ts = 200` and
`first_activity_ts = 100`. -/
theorem updateActivityTs_monotone_spec (p : Puppet) (ts : Int) (l : List Int)
    (hinv : ActivityInv p) :
    (ts ≤ p.lastActivityTs → updateActivityTs p ts = p)
    ∧ (p.lastActivityTs < ts → (updateActivityTs p ts).lastActivityTs = ts)
    ∧ p.lastActivityTs ≤ (updateActivityTs p ts).lastActivityTs
    ∧ p.lastActivityTs ≤ (l.foldl updateActivityTs p).lastActivityTs
    ∧ (p.firstActivityTs ≠ 0 →
        (updateActivityTs p ts).firstActivityTs = p.firstActivityTs)
    ∧ ((updateActivityTs p ts).firstActivityTs = p.firstActivityTs
        ∨ (p.firstActivityTs = 0 ∧ (updateActivityTs p ts).firstActivityTs = ts))
    ∧ ActivityInv (updateActivityTs p ts)
    ∧ ((updateActivityTs (updateActivityTs (updateActivityTs newPuppet 100) 50)
          200).lastActivityTs = 200
        ∧ (updateActivityTs (updateActivityTs (updateActivityTs newPuppet 100) 50)
            200).firstActivityTs = 100) :=
  ⟨updateActivityTs_noop_of_le p ts hinv,
   updateActivityTs_last_of_lt p ts,
   updateActivityTs_last_monotone p ts,
   updateActivityTs_foldl_monotone p l,
   updateActivityTs_first_frozen p ts,
   updateActivityTs_first_changes_only_when_unset p ts,
   updateActivityTs_preserves_inv p ts hinv,
   by decide, by decide⟩

/-- Witness for C1 at a concrete puppet and timestamps. -/
theorem updateActivityTs_monotone_spec_witness :
    updateActivityTs (updateActivityTs newPuppet 100) 50
      = updateActivityTs newPuppet 100 :=
  (updateActivityTs_monotone_spec (updateActivityTs newPuppet 100) 50 []
    (by unfold ActivityInv; decide)).1 (by decide)

/-- C9: a failed database write inside `UpdateActivityTs` is only logged;
the in-memory puppet ends in exactly the state of the success path,
whatever the outcomes of the two `Exec` calls. -/
theorem updateActivityTs_exec_failure_still_updates (p : Puppet) (ts : Int)
    (execLastErr execFirstErr : Option String) :
    (updateActivityTsExec p ts execLastErr execFirstErr).1
      = (updateActivityTsExec p ts none none).1
    ∧ (updateActivityTsExec p ts execLastErr execFirstErr).1
      = updateActivityTs p ts := by
  simp only [updateActivityTsExec, updateActivityTs]
  split
  · exact ⟨rfl, rfl⟩
  · split <;> exact ⟨rfl, rfl⟩

/-- One row of the `puppet` table, with the columns of the schema in
spec §6. `first_activity_ts` and `last_activity_ts` are nullable
(`sql.NullInt64`); `last_sync` is stored as the int64 the insert wrote. -/
structure PuppetRow where
  username : String
  avatar : String
  avatar_url : String
  avatar_set : Bool
  displayname : String
  name_quality : Int
  name_set : Bool
  contact_info_set : Bool
  last_sync : Int
  custom_mxid : String
  access_token : String
  next_batch : String
  enable_presence : Bool
  enable_receipts : Bool
  first_activity_ts : Option Int
  last_activity_ts : Option Int
  deriving Repr, DecidableEq

/-- The `lastSyncTS` local of `Puppet.sqlVariables`: 0 when `LastSync` is
the zero time, its Unix seconds otherwise. -/
def lastSyncTS (p : Puppet) : Int :=
  match p.lastSync with
  | none => 0
  | some s => s

/-- `Puppet.sqlVariables` combined with `insertPuppetQuery`
(src/database/puppet.go lines 54-58 and 136-147): the row written by an
insert. The insert column list does not include the activity timestamps,
so they are left NULL. -/
def Puppet.sqlVariables (p : Puppet) : PuppetRow :=
  { username := p.jid.user
    avatar := p.avatar
    avatar_url := p.avatarURL
    avatar_set := p.avatarSet
    displayname := p.displayname
    name_quality := p.nameQuality
    name_set := p.nameSet
    contact_info_set := p.contactInfoSet
    last_sync := lastSyncTS p
    custom_mxid := p.customMXID
    access_token := p.accessToken
    next_batch := p.nextBatch
    enable_presence := p.enablePresence
    enable_receipts := p.enableReceipts
    first_activity_ts := none
    last_activity_ts := none }

/-- Go conversion `int8(x)` applied to an int64: two's-complement
truncation to the range [-128, 128). -/
def toInt8 (n : Int) : Int :=
  let m := n % 256
  if m ≥ 128 then m - 256 else m

/-- `Puppet.Scan` (src/database/puppet.go lines 106-134), reading one row
in the column order of `getAllPuppetsQuery`. The JID is rebuilt as
`NewJID(username, DefaultUserServer)`; a `last_sync` value that is not
strictly positive leaves `LastSync` at the zero time; NULL activity
timestamps read as 0 through `sql.NullInt64`. `id.ParseContentURI` on the
string produced by `String()` is modelled as the identity (external
library, inverse conversions). -/
def Puppet.Scan (r : PuppetRow) : Puppet :=
  { jid := NewJID r.username DefaultUserServer
    displayname := r.displayname
    avatar := r.avatar
    avatarURL := r.avatar_url
    nameQuality := toInt8 r.name_quality
    nameSet := r.name_set
    avatarSet := r.avatar_set
    contactInfoSet := r.contact_info_set
    lastSync := if r.last_sync > 0 then some r.last_sync else none
    customMXID := r.custom_mxid
    accessToken := r.access_token
    nextBatch := r.next_batch
    enablePresence := r.enable_presence
    enableReceipts := r.enable_receipts
    firstActivityTs := r.first_activity_ts.getD 0
    lastActivityTs := r.last_activity_ts.getD 0 }

/-- `Puppet.Insert` (src/database/puppet.go lines 149-155): a puppet whose
JID is outside the standard-user namespace is rejected with a warning and
a nil error, writing nothing; otherwise the row of `sqlVariables` is
written. `execErr` is the outcome of the `Exec` call on the accepted
path. Returns the error result and the table after the call. -/
def Puppet.Insert (p : Puppet) (db : List PuppetRow)
    (execErr : Option String) : Option String × List PuppetRow :=
  if p.jid.server ≠ DefaultUserServer then (none, db)
  else
    match execErr with
    | some e => (some e, db)
    | none => (none, db ++ [p.sqlVariables])

/-- `PuppetQuery.Get` (`getPuppetByJIDQuery`): the row with matching
`username`, scanned. -/
def PuppetQuery.Get (db : List PuppetRow) (jid : JID) : Option Puppet :=
  (db.find? (fun r => r.username == jid.user)).map Puppet.Scan

/-- `PuppetQuery.GetAll` (`getAllPuppetsQuery`): every row, scanned. -/
def PuppetQuery.GetAll (db : List PuppetRow) : List Puppet :=
  db.map Puppet.Scan

/-- `PuppetQuery.GetByCustomMXID` (`getPuppetByCustomMXIDQuery`). -/
def PuppetQuery.GetByCustomMXID (db : List PuppetRow) (mxid : String) :
    Option Puppet :=
  (db.find? (fun r => r.custom_mxid == mxid)).map Puppet.Scan

/-- `PuppetQuery.GetAllWithCustomMXID`
(`getAllPuppetsWithCustomMXIDQuery`). -/
def PuppetQuery.GetAllWithCustomMXID (db : List PuppetRow) : List Puppet :=
  (db.filter (fun r => r.custom_mxid ≠ "")).map Puppet.Scan

/-- C6: `Insert` on a puppet whose JID is outside the standard-user
namespace writes nothing — the table is unchanged, hence the row count is
unchanged — and returns no error, whatever the `Exec` oracle would have
done; a puppet inside the namespace has its row durably appended on the
success path. -/
theorem insert_rejects_non_user_namespace (p : Puppet) (db : List PuppetRow)
    (execErr : Option String) :
    (p.jid.server ≠ DefaultUserServer →
      p.Insert db execErr = (none, db)
      ∧ (p.Insert db execErr).2.length = db.length)
    ∧ (p.jid.server = DefaultUserServer →
      p.Insert db none = (none, db ++ [p.sqlVariables])) := by
  constructor
  · intro h
    simp [Puppet.Insert, h]
  · intro h
    simp [Puppet.Insert, h]

/-- Witness for C6: a broadcast-list JID is rejected, a standard-user JID
is inserted. -/
theorem insert_rejects_non_user_namespace_witness :
    Puppet.Insert { newPuppet with jid := ⟨"123456789", "broadcast", 0⟩ }
        [] (some "boom") = (none, [])
    ∧ (Puppet.Insert { newPuppet with jid := ⟨"123456789", "broadcast", 0⟩ }
        [] (some "boom")).2.length = List.length ([] : List PuppetRow) :=
  (insert_rejects_non_user_namespace
    { newPuppet with jid := ⟨"123456789", "broadcast", 0⟩ } [] (some "boom")).1
    (by decide)

theorem scan_sqlVariables (p : Puppet)
    (hserver : p.jid.server = DefaultUserServer)
    (hdevice : p.jid.device = 0)
    (hfirst : p.firstActivityTs = 0)
    (hlast : p.lastActivityTs = 0)
    (hsync : 0 < p.lastSync.getD 1)
    (hq1 : -128 ≤ p.nameQuality) (hq2 : p.nameQuality < 128) :
    Puppet.Scan p.sqlVariables = p := by
  obtain ⟨⟨ju, js, jd⟩, av, au, aset, dn, nq, nset, cis, ls, cm, atk, nb,
    ep, er, fts, lts⟩ := p
  simp only at hserver hdevice hfirst hlast hsync hq1 hq2
  subst hserver hdevice hfirst hlast
  simp only [Puppet.Scan, Puppet.sqlVariables, NewJID, lastSyncTS,
    Puppet.mk.injEq, JID.mk.injEq]
  cases ls with
  | none =>
    simp [toInt8]
    omega
  | some s =>
    simp only [Option.getD_some] at hsync
    simp [toInt8, hsync]
    omega

/-- A puppet with `LastSync` at exactly the Unix epoch: a real, non-zero
`time.Time` whose Unix seconds are 0. -/
def epochSyncPuppet : Puppet :=
  { newPuppet with
    jid := ⟨"15551234567", "s.whatsapp.net", 0⟩
    lastSync := some 0 }

/-- C7 counterexample: inserting a standard-namespace puppet whose
`LastSync` is the Unix epoch and reading it back with `Get` does not
reproduce the puppet: the epoch timestamp was persisted as 0 and scans
back as the zero time, so the round trip is not bit-for-bit. -/
theorem insert_get_not_roundtrip_at_epoch :
    ¬ (PuppetQuery.Get (epochSyncPuppet.Insert [] none).2 epochSyncPuppet.jid
        = some epochSyncPuppet) := by
  decide

/-- C7 (amended): for every puppet in the standard-user namespace whose
JID carries no device part, whose in-memory activity timestamps are still
0 (they are not part of the insert column list), and whose `LastSync` is
either the zero time or a strictly post-epoch timestamp, `Insert` into an
empty table followed by `Get` on the same identifier reproduces every
field; in particular a zero `LastSync` is persisted as 0/NULL and scans
back as the zero time value. A `LastSync` at or before the epoch instead
collapses to the zero time, as the counterexample shows. -/
theorem insert_get_roundtrip (p : Puppet)
    (hserver : p.jid.server = DefaultUserServer)
    (hdevice : p.jid.device = 0)
    (hfirst : p.firstActivityTs = 0)
    (hlast : p.lastActivityTs = 0)
    (hsync : 0 < p.lastSync.getD 1)
    (hq1 : -128 ≤ p.nameQuality) (hq2 : p.nameQuality < 128) :
    PuppetQuery.Get (p.Insert [] none).2 p.jid = some p := by
  have hins : (p.Insert [] none).2 = [p.sqlVariables] := by
    simp [Puppet.Insert, hserver]
  rw [hins]
  simp only [PuppetQuery.Get, List.find?]
  have hname : (p.sqlVariables.username == p.jid.user) = true := by
    simp [Puppet.sqlVariables]
  rw [hname]
  simp only [Option.map_some]
  exact congrArg some
    (scan_sqlVariables p hserver hdevice hfirst hlast hsync hq1 hq2)

/-- Witness for C7's amended round trip at a concrete puppet. -/
theorem insert_get_roundtrip_witness :
    PuppetQuery.Get
      (({ newPuppet with
          jid := ⟨"15551234567", "s.whatsapp.net", 0⟩
          displayname := "Alice"
          nameQuality := 3
          lastSync := some 1700000000 } : Puppet).Insert [] none).2
      (⟨"15551234567", "s.whatsapp.net", 0⟩ : JID)
      = some { newPuppet with
          jid := ⟨"15551234567", "s.whatsapp.net", 0⟩
          displayname := "Alice"
          nameQuality := 3
          lastSync := some 1700000000 } :=
  insert_get_roundtrip
    { newPuppet with
      jid := ⟨"15551234567", "s.whatsapp.net", 0⟩
      displayname := "Alice"
      nameQuality := 3
      lastSync := some 1700000000 }
    rfl rfl rfl rfl (by decide) (by decide) (by decide)

/-- C10: every puppet produced by `Scan` — and hence every puppet returned
by `Get`, `GetAll`, `GetByCustomMXID` and `GetAllWithCustomMXID` — has its
JID rebuilt as `NewJID(username, DefaultUserServer)`: the server part is
the standard user server and the device part is 0, whatever the stored
row holds. -/
theorem scan_normalizes_jid (r : PuppetRow) (db : List PuppetRow)
    (jid : JID) (mxid : String) (p : Puppet) :
    ((Puppet.Scan r).jid = NewJID r.username DefaultUserServer
      ∧ (Puppet.Scan r).jid.server = DefaultUserServer
      ∧ (Puppet.Scan r).jid.device = 0)
    ∧ (PuppetQuery.Get db jid = some p →
        p.jid.server = DefaultUserServer ∧ p.jid.device = 0)
    ∧ (p ∈ PuppetQuery.GetAll db →
        p.jid.server = DefaultUserServer ∧ p.jid.device = 0)
    ∧ (PuppetQuery.GetByCustomMXID db mxid = some p →
        p.jid.server = DefaultUserServer ∧ p.jid.device = 0)
    ∧ (p ∈ PuppetQuery.GetAllWithCustomMXID db →
        p.jid.server = DefaultUserServer ∧ p.jid.device = 0) := by
  refine ⟨⟨rfl, rfl, rfl⟩, ?_, ?_, ?_, ?_⟩
  · intro h
    simp only [PuppetQuery.Get, Option.map_eq_some'] at h
    obtain ⟨row, _, hp⟩ := h
    subst hp
    exact ⟨rfl, rfl⟩
  · intro h
    simp only [PuppetQuery.GetAll, List.mem_map] at h
    obtain ⟨row, _, hp⟩ := h
    subst hp
    exact ⟨rfl, rfl⟩
  · intro h
    simp only [PuppetQuery.GetByCustomMXID, Option.map_eq_some'] at h
    obtain ⟨row, _, hp⟩ := h
    subst hp
    exact ⟨rfl, rfl⟩
  · intro h
    simp only [PuppetQuery.GetAllWithCustomMXID, List.mem_map] at h
    obtain ⟨row, _, hp⟩ := h
    subst hp
    exact ⟨rfl, rfl⟩

/-- Witness for C10: a row inserted with any username scans back with the
standard user server and no device part. -/
theorem scan_normalizes_jid_witness :
    (PuppetQuery.Get [newPuppet.sqlVariables] (⟨"", "", 0⟩ : JID)
        = some (Puppet.Scan newPuppet.sqlVariables))
    ∧ (Puppet.Scan newPuppet.sqlVariables).jid.server = DefaultUserServer
    ∧ (Puppet.Scan newPuppet.sqlVariables).jid.device = 0 :=
  ⟨by decide,
   (scan_normalizes_jid newPuppet.sqlVariables [newPuppet.sqlVariables]
      (⟨"", "", 0⟩ : JID) "" (Puppet.Scan newPuppet.sqlVariables)).2.1
     (by decide)⟩

/-- `User` as read by `StartUsers` (main.go): only the remote JID is
consulted there. -/
structure User where
  jid : JID
  deriving Repr, DecidableEq

/-- The users `StartUsers` (main.go lines 232-254) spawns
`go user.Connect()` for: every user returned by `GetAllUsers`, with no
filtering on the remote identifier. -/
def startUsersConnectCalls (users : List User) : List User := users

/-- The `foundAnySessions` flag computed by the `StartUsers` loop. -/
def foundAnySessions (users : List User) : Bool :=
  users.any (fun u => !u.jid.IsEmpty)

/-- `StartUsers` sends the global `StateUnconfigured` bridge state exactly
when no user has a non-empty remote identifier. -/
def startUsersEmitsUnconfigured (users : List User) : Bool :=
  !foundAnySessions users

/-- Modelled from the spec: `User.Connect` lives in user.go, which is not
among the given sources. The spec states that a User with an empty remote
identifier is "unconfigured" and must not be connected, so a connect
attempt establishes a session exactly when the remote JID is non-empty. -/
def User.Connect (u : User) : Bool := !u.jid.IsEmpty

/-- The users that are actually connected after `StartUsers`: every user
receives an asynchronous connect attempt, and the attempt succeeds per
the spec-modelled `Connect` guard. -/
def startUsersConnected (users : List User) : List User :=
  (startUsersConnectCalls users).filter User.Connect

theorem not_any_not_eq_all (l : List User) (f : User → Bool) :
    (!l.any fun u => !f u) = l.all f := by
  induction l with
  | nil => rfl
  | cons u t ih => simp_all [List.any_cons, List.all_cons]

/-- C8 counterexample: `StartUsers` spawns a connect attempt for a user
whose remote identifier is empty, so the set of users receiving a connect
attempt is not exactly the set of users with a non-empty identifier. -/
theorem startUsers_attempts_empty_jid_user :
    ¬ (startUsersConnectCalls [(⟨⟨"", "", 0⟩⟩ : User)]
        = ([(⟨⟨"", "", 0⟩⟩ : User)]).filter (fun u => !u.jid.IsEmpty)) := by
  decide

/-- C8 (amended): `StartUsers` spawns an asynchronous connect attempt for
every user, including those with an empty remote identifier; with the
spec-modelled `Connect` guard, exactly the users with a non-empty remote
identifier end up connected — so every user with a non-empty identifier
gets a connect attempt, a user with an empty identifier is never
connected — and the global unconfigured state is emitted exactly when
every user has an empty remote identifier. -/
theorem startUsers_connect_attempts (users : List User) :
    startUsersConnectCalls users = users
    ∧ startUsersConnected users = users.filter (fun u => !u.jid.IsEmpty)
    ∧ startUsersEmitsUnconfigured users
        = users.all (fun u => u.jid.IsEmpty) := by
  refine ⟨rfl, rfl, ?_⟩
  simpa [startUsersEmitsUnconfigured, foundAnySessions] using
    not_any_not_eq_all users (fun u => u.jid.IsEmpty)

end Mautrix
